import Mathlib

/-!
Shallow embedding of the broker runtime of `Net-reply-master-working`
(files `src/buffer_pool.rs`, `src/packet.rs`, `src/verify_slave.rs`).
Bytes are modelled as `Nat` (reduced mod 256 where the Rust `u8` type
guarantees it), byte strings as `List Nat`, `BytesMut` as a capacity /
length record, and the async state (shard queues, slave metadata,
socket outcomes) as explicit values.
-/

/-! ## Buffer pool (`src/buffer_pool.rs`) -/

/-- Constant `MAX_BUF_SIZE` from `buffer_pool.rs`. -/
def MAX_BUF_SIZE : Nat := 8192

/-- Constant `POOL_SIZE` from `buffer_pool.rs`. -/
def POOL_SIZE : Nat := 200

/-- Model of `bytes::BytesMut`: only its capacity and length are relevant
to the behaviour of the pool. -/
structure BytesMut where
  cap : Nat
  len : Nat
deriving Repr, DecidableEq

/-- Model of `BytesMut::with_capacity(c)`: empty buffer of capacity `c`. -/
def BytesMut.with_capacity (c : Nat) : BytesMut := ⟨c, 0⟩

/-- Model of `BytesMut::clear`: sets the length to 0, keeps the capacity. -/
def BytesMut.clear (b : BytesMut) : BytesMut := ⟨b.cap, 0⟩

/-- The queue of a `BufferPoolShard` (a `VecDeque<BytesMut>`): head of the list is
the front of the deque. -/
abbrev Shard : Type := List BytesMut

/-- Model of `BufferPoolShard::new(pool_size)`: prefills with `pool_size` buffers of
capacity `MAX_BUF_SIZE`. -/
def BufferPoolShard.new (pool_size : Nat) : Shard :=
  List.replicate pool_size (BytesMut.with_capacity MAX_BUF_SIZE)

/-- Model of `BufferPoolShard::get_buffer`: pops the front buffer; reallocates when
its capacity is below `MAX_BUF_SIZE`, clears it otherwise; allocates fresh
when the queue is empty. The third component records whether a fresh
allocation happened (the two `with_capacity` paths of the code). -/
def BufferPoolShard.get_buffer : Shard → BytesMut × Shard × Bool
  | [] => (BytesMut.with_capacity MAX_BUF_SIZE, [], true)
  | b :: rest =>
      if b.cap < MAX_BUF_SIZE then
        (BytesMut.with_capacity MAX_BUF_SIZE, rest, true)
      else
        (b.clear, rest, false)

/-- Model of `BufferPoolShard::return_buffer`: pushes the buffer (unchanged) to the
back when the queue holds fewer than `POOL_SIZE` buffers, drops it
otherwise. -/
def BufferPoolShard.return_buffer (s : Shard) (b : BytesMut) : Shard :=
  if List.length s < POOL_SIZE then s ++ [b] else s

/-- A `ShardedBufferPool`: the list of shard queues. -/
abbrev Pool : Type := List Shard

/-- Model of `ShardedBufferPool::new(num_shards, pool_size)`. -/
def ShardedBufferPool.new (num_shards pool_size : Nat) : Pool :=
  List.replicate num_shards (BufferPoolShard.new pool_size)

/-- Model of `ShardedBufferPool::get_buffer(id)`: shard index is `id % shards.len()`.
Returns the buffer, the updated pool and the fresh-allocation flag. -/
def ShardedBufferPool.get_buffer (pool : Pool) (id : Nat) :
    BytesMut × Pool × Bool :=
  let i := id % List.length pool
  let r := BufferPoolShard.get_buffer (List.getD pool i [])
  (r.1, List.set pool i r.2.1, r.2.2)

/-- Model of `ShardedBufferPool::return_buffer(id, buffer)`. -/
def ShardedBufferPool.return_buffer (pool : Pool) (id : Nat) (b : BytesMut) :
    Pool :=
  let i := id % List.length pool
  List.set pool i (BufferPoolShard.return_buffer (List.getD pool i []) b)

/-- One call against the pool: acquire (`get_buffer`) or release
(`return_buffer`). -/
inductive PoolOp where
  | get (id : Nat)
  | ret (id : Nat) (b : BytesMut)
deriving Repr, DecidableEq

/-- Runs a sequence of pool calls, threading the pool state. -/
def runOps : Pool → List PoolOp → Pool
  | pool, [] => pool
  | pool, PoolOp.get id :: rest =>
      runOps (ShardedBufferPool.get_buffer pool id).2.1 rest
  | pool, PoolOp.ret id b :: rest =>
      runOps (ShardedBufferPool.return_buffer pool id b) rest

/-! ## Framing codec (`src/packet.rs`) -/

/-- Enum `PacketType`. -/
inductive PacketType where
  | Data
  | Command
deriving Repr, DecidableEq

/-- Cast `PacketType as u8` (discriminants `0x00` and `0x01`). -/
def PacketType.to_u8 : PacketType → Nat
  | .Data => 0x00
  | .Command => 0x01

/-- Model of `PacketType::from_u8`. -/
def PacketType.from_u8 : Nat → Option PacketType
  | 0x00 => some .Data
  | 0x01 => some .Command
  | _ => none

/-- Enum `CommandType`. -/
inductive CommandType where
  | SpeedCheck
  | VersionCheck
  | Heartbeat
  | LocationCheck
  | InitSession
deriving Repr, DecidableEq

/-- Cast `CommandType as u8` (discriminants `0x01`..`0x05`). -/
def CommandType.to_u8 : CommandType → Nat
  | .SpeedCheck => 0x01
  | .VersionCheck => 0x02
  | .Heartbeat => 0x03
  | .LocationCheck => 0x04
  | .InitSession => 0x05

/-- Model of `CommandType::from_u8`. -/
def CommandType.from_u8 : Nat → Option CommandType
  | 0x01 => some .SpeedCheck
  | 0x02 => some .VersionCheck
  | 0x03 => some .Heartbeat
  | 0x04 => some .LocationCheck
  | 0x05 => some .InitSession
  | _ => none

/-- Model of `BufMut::put_u32`: big-endian bytes of `n` as a `u32` (for `n ≥ 2^32`
this is the truncation `n % 2^32`, matching the `as u32` casts of Rust). -/
def u32_be_bytes (n : Nat) : List Nat :=
  [n / 2 ^ 24 % 256, n / 2 ^ 16 % 256, n / 2 ^ 8 % 256, n % 256]

/-- Model of `u32::from_be_bytes`. -/
def u32_from_be_bytes (b0 b1 b2 b3 : Nat) : Nat :=
  ((b0 % 256 * 256 + b1 % 256) * 256 + b2 % 256) * 256 + b3 % 256

/-- Modelled from the spec: `bytes_to_u32` lives in `crate::utils`, which is
not among the sources; the wire layout (§4.2) fixes the session id as a
big-endian `u32`, matching `put_u32` in the encoder. -/
def bytes_to_u32 (bs : List Nat) : Nat :=
  List.foldl (fun acc b => acc * 256 + b % 256) 0 bs

/-- Model of `build_command_frame`: 10-byte header
(kind, session id be32, command byte, payload length be32) then payload.
`payload.len() as u32` is the truncated length. -/
def build_command_frame (packet_type : PacketType) (session_id : Nat)
    (command_type : Option CommandType) (payload : List Nat) : List Nat :=
  [packet_type.to_u8] ++ u32_be_bytes session_id ++
    [match command_type with
     | some cmd => cmd.to_u8
     | none => 0x00] ++
    u32_be_bytes (List.length payload) ++ payload

/-- Model of `build_data_frame`. -/
def build_data_frame (session_id : Nat) (payload : List Nat) : List Nat :=
  build_command_frame PacketType.Data session_id none payload

/-- Model of `parse_header`: under 10 bytes yields `(none, 0, 0, none)`; otherwise
reads kind, session id, payload length, and the command type only for
Command packets. -/
def parse_header (buffer : List Nat) :
    Option PacketType × Nat × Nat × Option CommandType :=
  if List.length buffer < 10 then (none, 0, 0, none)
  else
    let packet_type := PacketType.from_u8 (List.getD buffer 0 0)
    let session_id := bytes_to_u32 (List.take 4 (List.drop 1 buffer))
    let payload_len := u32_from_be_bytes (List.getD buffer 6 0)
      (List.getD buffer 7 0) (List.getD buffer 8 0) (List.getD buffer 9 0)
    let command_type :=
      if packet_type = some PacketType.Command then
        CommandType.from_u8 (List.getD buffer 5 0)
      else none
    (packet_type, session_id, payload_len, command_type)

/-- The payload of the heartbeat reply, `b"ALIVE"`. -/
def ALIVE : List Nat := [65, 76, 73, 86, 69]

/-- The observable outcome of one `process_packet` call: whether
`last_seen` was updated, which payload (if any) was routed to a client
session, and the returned `Result`. -/
structure ProcessEffect where
  last_seen_updated : Bool
  routed : Option (Nat × List Nat)
  result : Except String Unit
deriving Repr

/-- Model of `process_packet`: Command/Heartbeat with payload `b"ALIVE"` updates
`last_seen`; other commands are ignored; Data is routed to the session;
an unknown packet type is only logged. Every branch returns `Ok(())`. -/
def process_packet (packet_type : Option PacketType)
    (command_type : Option CommandType) (payload : List Nat)
    (session_id : Nat) : ProcessEffect :=
  match packet_type with
  | some PacketType.Command =>
      match command_type with
      | some CommandType.Heartbeat =>
          if payload = ALIVE then
            { last_seen_updated := true, routed := none, result := .ok () }
          else
            { last_seen_updated := false, routed := none, result := .ok () }
      | _ => { last_seen_updated := false, routed := none, result := .ok () }
  | some PacketType.Data =>
      { last_seen_updated := false, routed := some (session_id, payload),
        result := .ok () }
  | none => { last_seen_updated := false, routed := none, result := .ok () }

/-! ## Vetting (`src/verify_slave.rs`) -/

/-- Constant `ALLOWED_SLAVE_VERSIONS`. -/
def ALLOWED_SLAVE_VERSIONS : List String := ["1.0.9"]

/-- Modelled from the spec: `CommandPayload` is declared in
`crate::packet` but that declaration is not among the sources; §9 of the
spec describes it as a structured record with fields `version` and `url`. -/
structure CommandPayload where
  version : Option String
  url : Option String
deriving Repr, DecidableEq

/-- The outcome of `time::timeout(CLIENT_REQUEST_TIMEOUT,
read_stream(&mut buffer))` followed by payload extraction: elapsed timeout,
read error, or a successful read of `len` bytes. Modelled from the spec:
`parse_command_header` and `CommandPayload::from_bytes` are not among the
sources, so a successful read carries the deserialization outcome of the
extracted command payload directly. -/
inductive ReadOutcome where
  | timeout
  | readError (msg : String)
  | success (len : Nat) (parsed : Except String CommandPayload)

/-- Model of `perform_version_check`, as a function of the send outcome and the
read outcome. `Except.ok v` models `Ok(())` with `set_version(v)` having
stored the reported version `v`; every other path returns an error. -/
def perform_version_check (sendOk : Bool) (read : ReadOutcome) :
    Except String String :=
  if sendOk = false then .error "Failed to send version check command"
  else
    match read with
    | .success len parsed =>
        if 2 < len then
          match parsed with
          | .error e => .error e
          | .ok payload =>
              match payload.version with
              | some version =>
                  if (ALLOWED_SLAVE_VERSIONS.contains version) = false then
                    .error ("unsupported version: " ++ version)
                  else .ok version
              | none => .error "Version field missing in response"
        else .error "Version check response is invalid or empty"
    | .readError e => .error ("Version check read error: " ++ e)
    | .timeout => .error "Version check response timed out"

/-- Model of `char::to_ascii_lowercase` for the comparison below. -/
def toLowerAscii (c : Char) : Char :=
  if 'A' ≤ c ∧ c ≤ 'Z' then Char.ofNat (c.toNat + 32) else c

/-- Model of `str::eq_ignore_ascii_case`. -/
def eqIgnoreAsciiCase (a b : String) : Bool :=
  a.data.map toLowerAscii = b.data.map toLowerAscii

/-- Observable result of `perform_geolocation_check`: the value passed to
`set_location` (if any) and the returned `Result`. -/
structure GeoOutcome where
  location : Option String
  result : Except String Unit
deriving Repr

/-- Model of `perform_geolocation_check`, as a function of the send outcome, the
read outcome, the country extraction (`serde_json::from_str` then
`["data"]["country"].as_str()`, abstracted as `parseCountry` on the
field `url` of the payload) and `allowed_locations`. On a successfully
extracted country, `set_location` runs before the allowlist decision. -/
def perform_geolocation_check (sendOk : Bool) (read : ReadOutcome)
    (parseCountry : String → Except String (Option String))
    (allowed_locations : List String) : GeoOutcome :=
  if sendOk = false then
    ⟨none, .error "Failed to send geolocation check command"⟩
  else
    match read with
    | .success len parsed =>
        if 2 < len then
          match parsed with
          | .error e => ⟨none, .error e⟩
          | .ok payload =>
              match payload.url with
              | some location_data =>
                  match parseCountry location_data with
                  | .error e => ⟨none, .error e⟩
                  | .ok (some country) =>
                      if !allowed_locations.isEmpty &&
                          !(allowed_locations.any
                            (fun loc => eqIgnoreAsciiCase loc country)) then
                        ⟨some country,
                          .error ("restricted location: " ++ country)⟩
                      else ⟨some country, .ok ()⟩
                  | .ok none =>
                      ⟨none, .error "Missing country field in location response"⟩
              | none => ⟨none, .error "Location field missing in response"⟩
        else ⟨none, .error "Location check response is invalid or empty"⟩
    | .readError e => ⟨none, .error ("Location check read error: " ++ e)⟩
    | .timeout => ⟨none, .error "Location check response timed out"⟩

/-! ## Helper lemmas -/

/-- Characterization of one shard-level acquire on any pool state. -/
theorem get_buffer_characterization (pool : Pool) (id : Nat) :
    MAX_BUF_SIZE ≤ (ShardedBufferPool.get_buffer pool id).1.cap ∧
      (ShardedBufferPool.get_buffer pool id).1.len = 0 ∧
      ((ShardedBufferPool.get_buffer pool id).2.2 = true ↔
        List.getD pool (id % List.length pool) [] = [] ∨
          ∃ hd tl, List.getD pool (id % List.length pool) [] = hd :: tl ∧
            hd.cap < MAX_BUF_SIZE) := by
  simp only [ShardedBufferPool.get_buffer]
  generalize List.getD pool (id % List.length pool) [] = q
  rcases q with _ | ⟨b, rest⟩
  · simp [BufferPoolShard.get_buffer, BytesMut.with_capacity, MAX_BUF_SIZE]
  · by_cases hc : b.cap < 8192
    · simp [BufferPoolShard.get_buffer, hc, BytesMut.with_capacity,
        MAX_BUF_SIZE]
    · simp [BufferPoolShard.get_buffer, hc, BytesMut.clear, MAX_BUF_SIZE]
      omega

/-- Lemma: `PacketType.from_u8` yields `none` for every byte other than 0 and 1. -/
theorem from_u8_eq_none (b : Nat) (h0 : b ≠ 0) (h1 : b ≠ 1) :
    PacketType.from_u8 b = none := by
  match b with
  | 0 => exact absurd rfl h0
  | 1 => exact absurd rfl h1
  | n + 2 => rfl

/-- Reassembling the big-endian bytes of `n` gives `n % 2^32`. -/
theorem bytes_to_u32_u32_be_bytes (n : Nat) :
    bytes_to_u32 (u32_be_bytes n) = n % 2 ^ 32 := by
  simp [bytes_to_u32, u32_be_bytes, List.foldl]
  omega

/-- Lemma: `u32_from_be_bytes` inverts `put_u32` up to truncation. -/
theorem u32_from_be_bytes_be (n : Nat) :
    u32_from_be_bytes (n / 2 ^ 24 % 256) (n / 2 ^ 16 % 256)
      (n / 2 ^ 8 % 256) (n % 256) = n % 2 ^ 32 := by
  simp [u32_from_be_bytes]
  omega

/-- Lemma: `parse_header` on any buffer starting with an explicit 10-byte header. -/
theorem parse_header_cons (b0 b1 b2 b3 b4 b5 b6 b7 b8 b9 : Nat)
    (p : List Nat) :
    parse_header (b0 :: b1 :: b2 :: b3 :: b4 :: b5 :: b6 :: b7 :: b8 :: b9 :: p) =
      (PacketType.from_u8 b0, bytes_to_u32 [b1, b2, b3, b4],
       u32_from_be_bytes b6 b7 b8 b9,
       if PacketType.from_u8 b0 = some PacketType.Command then
         CommandType.from_u8 b5
       else none) := by
  have hlen : ¬ (List.length
      (b0 :: b1 :: b2 :: b3 :: b4 :: b5 :: b6 :: b7 :: b8 :: b9 :: p) < 10) := by
    simp
  simp only [parse_header, hlen, if_false]
  rfl

/-- Lemma: `build_data_frame` written as an explicit header followed by the
payload. -/
theorem build_data_frame_bytes (s : Nat) (p : List Nat) :
    build_data_frame s p =
      0 :: (s / 2 ^ 24 % 256) :: (s / 2 ^ 16 % 256) :: (s / 2 ^ 8 % 256) ::
        (s % 256) :: 0 :: (List.length p / 2 ^ 24 % 256) ::
        (List.length p / 2 ^ 16 % 256) :: (List.length p / 2 ^ 8 % 256) ::
        (List.length p % 256) :: p := by
  simp [build_data_frame, build_command_frame, u32_be_bytes, PacketType.to_u8]

/-! ## Claim theorems -/

/-- C1: on a pool with at least one shard, after any prior sequence of
`get_buffer`/`return_buffer` calls, `ShardedBufferPool::get_buffer` returns
a buffer with capacity ≥ `MAX_BUF_SIZE` (8192) and length 0, and it
allocates a fresh buffer exactly when the queue of the chosen shard is empty
or the popped head buffer has capacity below `MAX_BUF_SIZE`. -/
theorem buffer_pool_acquire_spec (num_shards pool_size : Nat)
    (ops : List PoolOp) (id : Nat) (pool : Pool)
    (_hn : 0 < num_shards)
    (_hpool : pool = runOps (ShardedBufferPool.new num_shards pool_size) ops) :
    MAX_BUF_SIZE ≤ (ShardedBufferPool.get_buffer pool id).1.cap ∧
      (ShardedBufferPool.get_buffer pool id).1.len = 0 ∧
      ((ShardedBufferPool.get_buffer pool id).2.2 = true ↔
        List.getD pool (id % List.length pool) [] = [] ∨
          ∃ hd tl, List.getD pool (id % List.length pool) [] = hd :: tl ∧
            hd.cap < MAX_BUF_SIZE) :=
  get_buffer_characterization pool id

/-- Witness for C1 at `new 1 0`, no prior calls, id 0. -/
theorem buffer_pool_acquire_spec_witness :
    MAX_BUF_SIZE ≤
        (ShardedBufferPool.get_buffer
          (runOps (ShardedBufferPool.new 1 0) []) 0).1.cap ∧
      (ShardedBufferPool.get_buffer
        (runOps (ShardedBufferPool.new 1 0) []) 0).1.len = 0 ∧
      ((ShardedBufferPool.get_buffer
          (runOps (ShardedBufferPool.new 1 0) []) 0).2.2 = true ↔
        List.getD (runOps (ShardedBufferPool.new 1 0) [])
            (0 % List.length (runOps (ShardedBufferPool.new 1 0) [])) [] = [] ∨
          ∃ hd tl, List.getD (runOps (ShardedBufferPool.new 1 0) [])
              (0 % List.length (runOps (ShardedBufferPool.new 1 0) [])) [] =
              hd :: tl ∧ hd.cap < MAX_BUF_SIZE) :=
  buffer_pool_acquire_spec 1 0 [] 0 (runOps (ShardedBufferPool.new 1 0) [])
    (by decide) rfl

/-- C9 counterexample: a reachable pool state whose shard queue holds a
buffer of nonzero length — `return_buffer` stores the returned buffer
unchanged, so returning a length-5 buffer leaves a length-5 buffer queued. -/
theorem buffer_pool_queue_nonzero_len :
    runOps (ShardedBufferPool.new 1 0)
        [PoolOp.ret 0 { cap := 8192, len := 5 }] =
      [[{ cap := 8192, len := 5 }]] ∧
      ({ cap := 8192, len := 5 } : BytesMut).len ≠ 0 := by
  decide

/-- C9 (amended): after any sequence of calls, every buffer drawn from the
pool has capacity ≥ `MAX_BUF_SIZE` and length 0; but a buffer returned to
the pool is enqueued unchanged (its length is not reset), so shard queues
may hold buffers of nonzero length. -/
theorem buffer_pool_draw_invariant (num_shards pool_size : Nat)
    (ops : List PoolOp) (id : Nat) (pool : Pool)
    (_hn : 0 < num_shards)
    (_hpool : pool = runOps (ShardedBufferPool.new num_shards pool_size) ops) :
    (MAX_BUF_SIZE ≤ (ShardedBufferPool.get_buffer pool id).1.cap ∧
      (ShardedBufferPool.get_buffer pool id).1.len = 0) ∧
    ∀ s : Shard, ∀ b : BytesMut, List.length s < POOL_SIZE →
      BufferPoolShard.return_buffer s b = s ++ [b] :=
  ⟨⟨(get_buffer_characterization pool id).1,
    (get_buffer_characterization pool id).2.1⟩,
   fun s b hs => by simp [BufferPoolShard.return_buffer, hs]⟩

/-- Witness for C9 (amended) at `new 1 1`, one release then one acquire. -/
theorem buffer_pool_draw_invariant_witness :
    (MAX_BUF_SIZE ≤
        (ShardedBufferPool.get_buffer
          (runOps (ShardedBufferPool.new 1 1)
            [PoolOp.ret 0 { cap := 0, len := 7 }]) 3).1.cap ∧
      (ShardedBufferPool.get_buffer
        (runOps (ShardedBufferPool.new 1 1)
          [PoolOp.ret 0 { cap := 0, len := 7 }]) 3).1.len = 0) ∧
    ∀ s : Shard, ∀ b : BytesMut, List.length s < POOL_SIZE →
      BufferPoolShard.return_buffer s b = s ++ [b] :=
  buffer_pool_draw_invariant 1 1 [PoolOp.ret 0 { cap := 0, len := 7 }] 3
    (runOps (ShardedBufferPool.new 1 1) [PoolOp.ret 0 { cap := 0, len := 7 }])
    (by decide) rfl

/-- C2 counterexample: a 10-byte header declaring payload length 8183
(> `MAX_BUF_SIZE - 10` = 8182) is not reported invalid: `parse_header`
returns an accepted packet kind (`some Data`) together with the oversized
length. -/
theorem parse_header_accepts_large_len :
    parse_header [0, 0, 0, 0, 0, 0, 0, 0, 31, 247] =
      (some PacketType.Data, 0, 8183, none) ∧ 8182 < 8183 := by
  constructor
  · rfl
  · decide

/-- C2 (amended): `parse_header` enforces no payload-length cap: for every
declared length `L` — including every `L > 8182` — and session id, a header
with a valid first byte parses to an accepted frame carrying exactly `L`. -/
theorem parse_header_no_length_cap (sid L : Nat) (hs : sid < 2 ^ 32)
    (hL : L < 2 ^ 32) :
    parse_header (0 :: (sid / 2 ^ 24 % 256) :: (sid / 2 ^ 16 % 256) ::
        (sid / 2 ^ 8 % 256) :: (sid % 256) :: 0 :: (L / 2 ^ 24 % 256) ::
        (L / 2 ^ 16 % 256) :: (L / 2 ^ 8 % 256) :: (L % 256) :: []) =
      (some PacketType.Data, sid, L, none) := by
  rw [parse_header_cons]
  have h1 : bytes_to_u32 [sid / 2 ^ 24 % 256, sid / 2 ^ 16 % 256,
      sid / 2 ^ 8 % 256, sid % 256] = sid % 2 ^ 32 :=
    bytes_to_u32_u32_be_bytes sid
  have h2 := u32_from_be_bytes_be L
  rw [h1, h2, Nat.mod_eq_of_lt hs, Nat.mod_eq_of_lt hL]
  rfl

/-- Witness for C2 (amended) at sid 0, declared length 8183. -/
theorem parse_header_no_length_cap_witness :
    parse_header (0 :: (0 / 2 ^ 24 % 256) :: (0 / 2 ^ 16 % 256) ::
        (0 / 2 ^ 8 % 256) :: (0 % 256) :: 0 :: (8183 / 2 ^ 24 % 256) ::
        (8183 / 2 ^ 16 % 256) :: (8183 / 2 ^ 8 % 256) :: (8183 % 256) :: []) =
      (some PacketType.Data, 0, 8183, none) :=
  parse_header_no_length_cap 0 8183 (by decide) (by decide)

/-- C3 counterexample: for a payload of `2^32` bytes, `payload.len() as u32`
truncates to 0, so the decoded payload length is 0, not `|p|`. -/
theorem build_data_frame_len_overflow :
    (parse_header (build_data_frame 0 (List.replicate (2 ^ 32) 0))).2.2.1 = 0 ∧
      List.length (List.replicate (2 ^ 32) (0 : Nat)) = 2 ^ 32 ∧
      (0 : Nat) ≠ 2 ^ 32 := by
  have hrep : List.length (List.replicate (2 ^ 32) (0 : Nat)) = 2 ^ 32 :=
    List.length_replicate _ _
  refine ⟨?_, hrep, by norm_num⟩
  rw [build_data_frame_bytes, hrep, parse_header_cons]
  show u32_from_be_bytes (2 ^ 32 / 2 ^ 24 % 256) (2 ^ 32 / 2 ^ 16 % 256)
      (2 ^ 32 / 2 ^ 8 % 256) (2 ^ 32 % 256) = 0
  decide

/-- C3 (amended): for every session id `s < 2^32` and payload `p`,
`build_data_frame` yields exactly `10 + |p|` bytes with byte 5 equal to
`0x00`, and `parse_header` on that frame returns kind Data, session id `s`,
payload length `|p| mod 2^32` (equal to `|p|` whenever `|p| < 2^32`), and
no command type. -/
theorem build_data_frame_roundtrip (s : Nat) (p : List Nat)
    (hs : s < 2 ^ 32) :
    List.length (build_data_frame s p) = 10 + List.length p ∧
      List.getD (build_data_frame s p) 5 0 = 0 ∧
      parse_header (build_data_frame s p) =
        (some PacketType.Data, s, List.length p % 2 ^ 32, none) := by
  rw [build_data_frame_bytes]
  refine ⟨by simp; omega, rfl, ?_⟩
  rw [parse_header_cons]
  have h1 : bytes_to_u32 [s / 2 ^ 24 % 256, s / 2 ^ 16 % 256,
      s / 2 ^ 8 % 256, s % 256] = s % 2 ^ 32 :=
    bytes_to_u32_u32_be_bytes s
  have h2 := u32_from_be_bytes_be (List.length p)
  rw [h1, h2, Nat.mod_eq_of_lt hs]
  rfl

/-- Witness for C3 (amended) at session id 7, payload `[104, 105]`. -/
theorem build_data_frame_roundtrip_witness :
    List.length (build_data_frame 7 [104, 105]) = 10 + List.length [104, 105] ∧
      List.getD (build_data_frame 7 [104, 105]) 5 0 = 0 ∧
      parse_header (build_data_frame 7 [104, 105]) =
        (some PacketType.Data, 7, List.length [104, 105] % 2 ^ 32, none) :=
  build_data_frame_roundtrip 7 [104, 105] (by decide)

/-- C4 counterexample: a short buffer (needs-more) and a 10-byte buffer
with unrecognized first byte `0x7F` (frame-invalid) produce the identical
return value `(none, 0, 0, none)`, so the two outcomes are not
distinguishable from the result of `parse_header` for this pair. -/
theorem parse_header_outcomes_collide :
    parse_header [] = (none, 0, 0, none) ∧
      parse_header [127, 0, 0, 0, 0, 0, 0, 0, 0, 0] = (none, 0, 0, none) ∧
      List.length ([] : List Nat) < 10 ∧
      10 ≤ List.length [127, 0, 0, 0, 0, 0, 0, 0, 0, 0] ∧
      (127 : Nat) ≠ 0 ∧ (127 : Nat) ≠ 1 := by
  refine ⟨rfl, rfl, by decide, by decide, by decide, by decide⟩

/-- C4 (amended): every buffer shorter than 10 bytes parses to the
needs-more value `(none, 0, 0, none)`, and every buffer of at least 10
bytes whose first byte is neither `0x00` nor `0x01` parses with packet
kind `none` (frame-invalid); the two return values coincide when the
session-id and length fields of the invalid frame are zero, so they are not
always distinguishable. -/
theorem parse_header_short_and_invalid (buffer : List Nat) :
    (List.length buffer < 10 → parse_header buffer = (none, 0, 0, none)) ∧
      (10 ≤ List.length buffer → List.getD buffer 0 0 ≠ 0 →
        List.getD buffer 0 0 ≠ 1 → (parse_header buffer).1 = none) := by
  constructor
  · intro hshort
    simp [parse_header, hshort]
  · intro hlong h0 h1
    simp [parse_header, Nat.not_lt_of_le hlong]
    rw [← List.getD_eq_getElem?_getD]
    exact from_u8_eq_none (List.getD buffer 0 0) h0 h1

/-- Witness for C4 (amended): the short branch at `[]` and the invalid
branch at a `0x7F`-headed 10-byte buffer. -/
theorem parse_header_short_and_invalid_witness :
    parse_header [] = (none, 0, 0, none) ∧
      (parse_header [127, 1, 2, 3, 4, 5, 6, 7, 8, 9]).1 = none :=
  ⟨(parse_header_short_and_invalid []).1 (by decide),
   (parse_header_short_and_invalid [127, 1, 2, 3, 4, 5, 6, 7, 8, 9]).2
     (by decide) (by decide) (by decide)⟩

/-- C5: `process_packet` updates `last_seen` if and only if the frame is a
Command frame of command kind Heartbeat whose payload is exactly the ASCII
bytes of `"ALIVE"`; every other kind or payload leaves it unchanged. -/
theorem process_packet_touch_iff (pt : Option PacketType)
    (ct : Option CommandType) (payload : List Nat) (sid : Nat) :
    (process_packet pt ct payload sid).last_seen_updated = true ↔
      pt = some PacketType.Command ∧ ct = some CommandType.Heartbeat ∧
        payload = ALIVE := by
  rcases pt with _ | pt
  · simp [process_packet]
  · cases pt
    · simp [process_packet]
    · rcases ct with _ | ct
      · simp [process_packet]
      · cases ct <;> simp [process_packet] <;>
          by_cases hp : payload = ALIVE <;> simp [hp]

/-- C6 counterexample: invoked with no valid packet type, `process_packet`
returns success (`Ok(())`) — it does not signal an error to its caller. -/
theorem process_packet_unknown_returns_ok :
    (process_packet none none [] 0).result = Except.ok () := rfl

/-- C6 (amended): on an unrecognized packet-kind (`process_packet` invoked
with no valid packet type), the function only logs: it updates nothing,
routes nothing, and returns success, so terminating the slave is left to
its caller rather than signalled through the return value. -/
theorem process_packet_unknown_is_noop (ct : Option CommandType)
    (payload : List Nat) (sid : Nat) :
    process_packet none ct payload sid =
      { last_seen_updated := false, routed := none,
        result := Except.ok () } := rfl

/-- C7: `perform_version_check` succeeds — returning `Ok` with the
reported version stored — if and only if the send succeeded and a
well-formed response of more than 2 bytes arrived within the timeout whose
deserialized payload carries a version string in the hard-coded allowlist;
on a version outside the allowlist, timeout, read error, malformed payload
or missing version field it returns an error. -/
theorem version_check_ok_iff (sendOk : Bool) (read : ReadOutcome)
    (v : String) :
    perform_version_check sendOk read = Except.ok v ↔
      sendOk = true ∧
        ∃ len payload,
          read = ReadOutcome.success len (Except.ok payload) ∧ 2 < len ∧
            payload.version = some v ∧ v ∈ ALLOWED_SLAVE_VERSIONS := by
  cases sendOk
  · simp [perform_version_check]
  · rcases read with _ | msg | ⟨len, parsed⟩
    · constructor
      · intro h
        exact absurd h (by simp [perform_version_check])
      · rintro ⟨-, len2, payload2, heq, -⟩
        cases heq
    · constructor
      · intro h
        exact absurd h (by simp [perform_version_check])
      · rintro ⟨-, len2, payload2, heq, -⟩
        cases heq
    · by_cases hlen : 2 < len
      · rcases parsed with e | payload
        · constructor
          · intro h
            exact absurd h (by simp [perform_version_check, hlen])
          · rintro ⟨-, len2, payload2, heq, -⟩
            cases heq
        · rcases hv : payload.version with _ | ver
          · constructor
            · intro h
              exact absurd h (by simp [perform_version_check, hlen, hv])
            · rintro ⟨-, len2, payload2, heq, -, hv2, -⟩
              cases heq
              rw [hv] at hv2
              cases hv2
          · by_cases hmem : ver ∈ ALLOWED_SLAVE_VERSIONS
            · have hc : ALLOWED_SLAVE_VERSIONS.contains ver = true := by
                simpa [ALLOWED_SLAVE_VERSIONS] using hmem
              have hres : perform_version_check true
                  (ReadOutcome.success len (Except.ok payload)) =
                    Except.ok ver := by
                simp [perform_version_check, hlen, hv, hc, hmem]
              rw [hres]
              constructor
              · intro h
                injection h with h
                subst h
                exact ⟨rfl, len, payload, rfl, hlen, hv, hmem⟩
              · rintro ⟨-, len2, payload2, heq, -, hv2, -⟩
                cases heq
                rw [hv] at hv2
                injection hv2 with hv2
                rw [hv2]
            · have hc : ALLOWED_SLAVE_VERSIONS.contains ver = false := by
                simpa [ALLOWED_SLAVE_VERSIONS] using hmem
              have hres : perform_version_check true
                  (ReadOutcome.success len (Except.ok payload)) =
                    Except.error ("unsupported version: " ++ ver) := by
                simp [perform_version_check, hlen, hv, hc, hmem]
              rw [hres]
              constructor
              · intro h
                exact absurd h (by simp)
              · rintro ⟨-, len2, payload2, heq, -, hv2, hmem2⟩
                cases heq
                rw [hv] at hv2
                injection hv2 with hv2
                rw [hv2] at hmem
                exact absurd hmem2 hmem
      · constructor
        · intro h
          exact absurd h (by simp [perform_version_check, hlen])
        · rintro ⟨-, len2, payload2, heq, hlen2, -⟩
          cases heq
          exact absurd hlen2 hlen

/-- C8: for a well-formed geolocation response whose extracted
`data.country` is `c`, `perform_geolocation_check` rejects the slave if
and only if `allowed_locations` is non-empty and no entry equals `c`
under case-insensitive ASCII comparison; with an empty allowlist every
country is accepted. -/
theorem geolocation_reject_iff (read : ReadOutcome)
    (parseCountry : String → Except String (Option String))
    (allowed_locations : List String) (len : Nat) (payload : CommandPayload)
    (u c : String)
    (hread : read = ReadOutcome.success len (Except.ok payload))
    (hlen : 2 < len) (hurl : payload.url = some u)
    (hcountry : parseCountry u = Except.ok (some c)) :
    ((∃ e, (perform_geolocation_check true read parseCountry
          allowed_locations).result = Except.error e) ↔
        allowed_locations ≠ [] ∧
          ∀ loc ∈ allowed_locations, eqIgnoreAsciiCase loc c = false) ∧
      (allowed_locations = [] →
        (perform_geolocation_check true read parseCountry
          allowed_locations).result = Except.ok ()) := by
  subst hread
  have hres : perform_geolocation_check true
      (ReadOutcome.success len (Except.ok payload)) parseCountry
        allowed_locations =
      if !allowed_locations.isEmpty &&
          !(allowed_locations.any (fun loc => eqIgnoreAsciiCase loc c)) then
        ⟨some c, Except.error ("restricted location: " ++ c)⟩
      else ⟨some c, Except.ok ()⟩ := by
    simp [perform_geolocation_check, hlen, hurl, hcountry]
  rw [hres]
  by_cases hcond : (!allowed_locations.isEmpty &&
      !(allowed_locations.any (fun loc => eqIgnoreAsciiCase loc c))) = true
  · rw [if_pos hcond]
    simp only [Bool.and_eq_true, Bool.not_eq_true', List.isEmpty_eq_false,
      List.any_eq_false] at hcond
    constructor
    · constructor
      · intro _
        exact ⟨hcond.1, fun loc hloc => by
          simpa using hcond.2 loc hloc⟩
      · intro _
        exact ⟨_, rfl⟩
    · intro hnil
      exact absurd hnil hcond.1
  · rw [if_neg hcond]
    simp only [Bool.and_eq_true, Bool.not_eq_true', List.isEmpty_eq_false,
      List.any_eq_false, not_and, not_forall] at hcond
    constructor
    · constructor
      · rintro ⟨e, he⟩
        cases he
      · rintro ⟨hne, hall⟩
        rcases hcond hne with ⟨loc, hloc, hmatch⟩
        have := hall loc hloc
        simp at hmatch
        rw [this] at hmatch
        cases hmatch
    · intro _
      rfl

/-- Witness for C8: country `"KP"` against allowlist `["US"]` is rejected. -/
theorem geolocation_reject_iff_witness :
    ∃ e, (perform_geolocation_check true
        (ReadOutcome.success 10 (Except.ok ⟨none, some "geo"⟩))
        (fun _ => Except.ok (some "KP")) ["US"]).result = Except.error e :=
  (geolocation_reject_iff (ReadOutcome.success 10 (Except.ok ⟨none, some "geo"⟩))
      (fun _ => Except.ok (some "KP")) ["US"] 10 ⟨none, some "geo"⟩
      "geo" "KP" rfl (by decide) rfl rfl).1.mpr
    (by constructor
        · intro h
          cases h
        · intro loc hloc
          rw [List.mem_singleton] at hloc
          subst hloc
          decide)

/-- C10: when `perform_geolocation_check` rejects a slave for a restricted
country `c`, `set_location` has already recorded `c` on the slave before
the error is returned: the outcome carries `location = some c` together
with the rejection error. -/
theorem geolocation_sets_location_before_reject (read : ReadOutcome)
    (parseCountry : String → Except String (Option String))
    (allowed_locations : List String) (len : Nat) (payload : CommandPayload)
    (u c : String)
    (hread : read = ReadOutcome.success len (Except.ok payload))
    (hlen : 2 < len) (hurl : payload.url = some u)
    (hcountry : parseCountry u = Except.ok (some c))
    (hne : allowed_locations ≠ [])
    (hnomatch : ∀ loc ∈ allowed_locations, eqIgnoreAsciiCase loc c = false) :
    (perform_geolocation_check true read parseCountry
        allowed_locations).location = some c ∧
      (perform_geolocation_check true read parseCountry
          allowed_locations).result =
        Except.error ("restricted location: " ++ c) := by
  subst hread
  have hcond : (!allowed_locations.isEmpty &&
      !(allowed_locations.any (fun loc => eqIgnoreAsciiCase loc c))) = true := by
    simp only [Bool.and_eq_true, Bool.not_eq_true', List.isEmpty_eq_false,
      List.any_eq_false]
    exact ⟨hne, fun loc hloc => by simp [hnomatch loc hloc]⟩
  simp [perform_geolocation_check, hlen, hurl, hcountry, hcond]

/-- Witness for C10: country `"CN"` against allowlist `["DE"]` is rejected
with the location already stored. -/
theorem geolocation_sets_location_before_reject_witness :
    (perform_geolocation_check true
        (ReadOutcome.success 5 (Except.ok ⟨none, some "body"⟩))
        (fun _ => Except.ok (some "CN")) ["DE"]).location = some "CN" ∧
      (perform_geolocation_check true
          (ReadOutcome.success 5 (Except.ok ⟨none, some "body"⟩))
          (fun _ => Except.ok (some "CN")) ["DE"]).result =
        Except.error ("restricted location: " ++ "CN") :=
  geolocation_sets_location_before_reject
    (ReadOutcome.success 5 (Except.ok ⟨none, some "body"⟩))
    (fun _ => Except.ok (some "CN")) ["DE"] 5 ⟨none, some "body"⟩
    "body" "CN" rfl (by decide) rfl rfl (by decide)
    (by intro loc hloc
        rw [List.mem_singleton] at hloc
        subst hloc
        decide)
